import Mathlib

/-!
# server.js: cluster supervisor and worker start-up

A shallow embedding of `src/server.js`.  A process is described by the
sequence of library calls it performs (`Call`); the cluster runtime is a
state (`Cluster`) on which these calls act.  The master branch forks one
worker per CPU and registers an `exit` listener; the worker branch runs
`startServer`.
-/

namespace Server

/-! ## Values and library calls -/

/-- A JavaScript value as far as `PORT` needs it: a string taken from the
environment or the number literal of the source. -/
inductive JsVal where
  | str (s : String)
  | num (n : Nat)
  deriving DecidableEq, Repr

/-- Options object passed to `mongoose.connect` (server.js 44-48). -/
structure ConnectOptions where
  useNewUrlParser : Bool
  useUnifiedTopology : Bool
  maxPoolSize : Nat
  deriving DecidableEq, Repr

/-- Options object passed to `cors` (server.js 53-64). -/
structure CorsOptions where
  origin : Option String
  methods : List String
  allowedHeaders : List String
  credentials : Bool
  deriving DecidableEq, Repr

/-- Options object passed to `rateLimit` (server.js 74-77). -/
structure RateLimitOptions where
  windowMs : Nat
  max : Nat
  deriving DecidableEq, Repr

/-- Middleware values built in `startServer`. -/
inductive Middleware where
  | cors (opts : Option CorsOptions)
  | cookieParser
  | expressJson
  | compression
  | rateLimit (opts : RateLimitOptions)
  deriving DecidableEq, Repr

/-- The library calls server.js performs, in the order it performs them. -/
inductive Call where
  | clusterFork
  | clusterOnExit
  | consoleLog (line : String)
  | consoleError (line : String)
  | express
  | mongooseConnect (url : Option String) (opts : ConnectOptions)
  | appUse (mw : Middleware)
  | appOptions (path : String) (mw : Middleware)
  | appUseRouter (path : String) (router : String)
  | appListen (port : JsVal)
  deriving DecidableEq, Repr

/-- The part of `process.env` that server.js reads. -/
structure Env where
  PORT : Option String
  MONGO_URL : Option String
  CLIENT_URL : Option String
  deriving DecidableEq, Repr

/-- The operator `a || b` with `a` an environment entry: `undefined` and
the empty string are falsy, every other string is truthy and is the result. -/
def jsOr (a : Option String) (b : JsVal) : JsVal :=
  match a with
  | none => b
  | some s => if s = "" then b else JsVal.str s

/-- Line 24: `const PORT = process.env.PORT || 5000`. -/
def PORT (env : Env) : JsVal :=
  jsOr env.PORT (JsVal.num 5000)

/-- Rendering of a value inside a template literal. -/
def JsVal.render : JsVal → String
  | JsVal.str s => s
  | JsVal.num n => toString n

/-! ## Master branch (server.js 26-37) -/

/-- Lines 29-31: `for (let i = 0; i < numCPUs; i++) cluster.fork()`.
The first argument bounds the number of iterations unrolled. -/
def forkLoop (numCPUs : Nat) : Nat → Nat → List Call
  | 0, _ => []
  | fuel + 1, i =>
    if i < numCPUs then Call.clusterFork :: forkLoop numCPUs fuel (i + 1) else []

/-- Lines 26-37: the calls of a process whose `cluster.isMaster` is true,
with `numCPUs = os.cpus().length`. -/
def masterBranch (numCPUs : Nat) : List Call :=
  forkLoop numCPUs numCPUs 0 ++ [Call.clusterOnExit]

/-- The worker object handed to an `exit` listener, together with the
exit code and signal the runtime passes along. -/
structure ExitEvent where
  pid : Nat
  code : Option Int
  signal : Option String
  deriving DecidableEq, Repr

/-- Lines 34-37: the listener `(worker) => { console.log(...); cluster.fork() }`.
It binds only its first parameter. -/
def exitHandler (e : ExitEvent) : List Call :=
  [Call.consoleLog ("Worker " ++ toString e.pid ++ " died. Restarting..."),
   Call.clusterFork]

/-! ## The cluster runtime as seen by the master -/

/-- State of the cluster module in the master process. -/
structure Cluster where
  /-- Number of `cluster.fork` calls made so far. -/
  forks : Nat
  /-- Number of worker processes alive. -/
  live : Nat
  /-- Number of listeners registered for the `exit` event. -/
  exitListeners : Nat
  /-- Lines written with `console.log`, oldest first. -/
  stdout : List String
  deriving DecidableEq, Repr

/-- The state before server.js runs. -/
def Cluster.init : Cluster :=
  { forks := 0, live := 0, exitListeners := 0, stdout := [] }

/-- Effect of one call of the master on the cluster state. -/
def Cluster.call (s : Cluster) : Call → Cluster
  | Call.clusterFork => { s with forks := s.forks + 1, live := s.live + 1 }
  | Call.clusterOnExit => { s with exitListeners := s.exitListeners + 1 }
  | Call.consoleLog line => { s with stdout := s.stdout ++ [line] }
  | _ => s

/-- Effect of a sequence of calls. -/
def Cluster.run (s : Cluster) (cs : List Call) : Cluster :=
  cs.foldl Cluster.call s

/-- The master after its top-level code has run on a host with `numCPUs` CPUs. -/
def start (numCPUs : Nat) : Cluster :=
  Cluster.init.run (masterBranch numCPUs)

/-- A worker dies: it leaves the pool, then the runtime emits `exit` and
every registered listener runs with the dead worker. -/
def Cluster.emitExit (s : Cluster) (e : ExitEvent) : Cluster :=
  Cluster.run { s with live := s.live - 1 }
    (List.replicate s.exitListeners (exitHandler e)).flatten

/-- A sequence of worker deaths, handled one after the other. -/
def Cluster.emitAll (s : Cluster) (es : List ExitEvent) : Cluster :=
  es.foldl Cluster.emitExit s

/-! ## Worker branch (server.js 38-99) -/

/-- Lines 45-47: the options of `mongoose.connect`. -/
def connectOptions : ConnectOptions :=
  { useNewUrlParser := true, useUnifiedTopology := true, maxPoolSize := 10 }

/-- Lines 54-63: the options of the first `cors` middleware. -/
def corsOptions (env : Env) : CorsOptions :=
  { origin := env.CLIENT_URL
    methods := ["GET", "POST", "DELETE", "PUT"]
    allowedHeaders :=
      ["Content-Type", "Authorization", "Cache-Control", "Expires", "Pragma"]
    credentials := true }

/-- Lines 75-76: the options of `rateLimit`. -/
def limiterOptions : RateLimitOptions :=
  { windowMs := 15 * 60 * 1000, max := 100 }

/-- Lines 81-90: the ten route groups, in mounting order. -/
def routes : List (String × String) :=
  [("/api/auth", "authRouter"),
   ("/api/admin/products", "adminProductsRouter"),
   ("/api/admin/orders", "adminOrderRouter"),
   ("/api/shop/products", "shopProductsRouter"),
   ("/api/shop/cart", "shopCartRouter"),
   ("/api/shop/address", "shopAddressRouter"),
   ("/api/shop/order", "shopOrderRouter"),
   ("/api/shop/search", "shopSearchRouter"),
   ("/api/shop/review", "shopReviewRouter"),
   ("/api/common/feature", "commonFeatureRouter")]

/-- Lines 40-96: the calls `startServer` makes before it returns. -/
def startServer (env : Env) : List Call :=
  [Call.express,
   Call.mongooseConnect env.MONGO_URL connectOptions,
   Call.appUse (Middleware.cors (some (corsOptions env))),
   Call.appOptions "*" (Middleware.cors none),
   Call.appUse Middleware.cookieParser,
   Call.appUse Middleware.expressJson,
   Call.appUse Middleware.compression,
   Call.appUse (Middleware.rateLimit limiterOptions)]
  ++ routes.map (fun r => Call.appUseRouter r.1 r.2)
  ++ [Call.appListen (PORT env)]

/-- How the promise returned by `mongoose.connect` settles. -/
inductive ConnectOutcome where
  | resolved
  | rejected (error : String)
  deriving DecidableEq, Repr

/-- A promise chain: the settled state at the current link and the calls
made by the callbacks that have run. -/
structure Chain where
  state : ConnectOutcome
  calls : List Call
  deriving DecidableEq, Repr

/-- The link `.then(onFulfilled)`: runs the callback on a fulfilled promise,
passes a rejection on. -/
def Chain.andThen (c : Chain) (onFulfilled : List Call) : Chain :=
  match c.state with
  | ConnectOutcome.resolved => { c with calls := c.calls ++ onFulfilled }
  | ConnectOutcome.rejected _ => c

/-- The link `.catch(onRejected)`: runs the callback on a rejection and
yields a fulfilled promise, passes a fulfilled promise on. -/
def Chain.orCatch (c : Chain) (onRejected : String → List Call) : Chain :=
  match c.state with
  | ConnectOutcome.resolved => c
  | ConnectOutcome.rejected error =>
    { state := ConnectOutcome.resolved, calls := c.calls ++ onRejected error }

/-- Lines 44-50: the chain hanging off `mongoose.connect(...)`. -/
def connectChain (outcome : ConnectOutcome) : Chain :=
  Chain.orCatch
    (Chain.andThen { state := outcome, calls := [] }
      [Call.consoleLog "MongoDB connected"])
    (fun error => [Call.consoleError ("MongoDB connection error: " ++ error)])

/-- Lines 93-95: the callback of `app.listen`. -/
def onListening (env : Env) (pid : Nat) : List Call :=
  [Call.consoleLog
    ("Worker " ++ toString pid ++ " is running on port " ++ (PORT env).render)]

/-- All calls of a worker process: the body of `startServer`, then the two
callbacks in the order in which their events arrive. -/
def workerProcess (env : Env) (pid : Nat) (outcome : ConnectOutcome)
    (listenFirst : Bool) : List Call :=
  startServer env ++
    (if listenFirst then onListening env pid ++ (connectChain outcome).calls
     else (connectChain outcome).calls ++ onListening env pid)

/-- Lines 26-99: the top-level calls of server.js, by the value of
`cluster.isMaster`. -/
def serverJs (isMaster : Bool) (numCPUs : Nat) (env : Env) : List Call :=
  if isMaster then masterBranch numCPUs else startServer env

/-- The calls that only `startServer` makes. -/
def Call.isServerCall : Call → Bool
  | Call.express => true
  | Call.mongooseConnect _ _ => true
  | Call.appUse _ => true
  | Call.appOptions _ _ => true
  | Call.appUseRouter _ _ => true
  | Call.appListen _ => true
  | _ => false

/-- The calls that act on the cluster. -/
def Call.isClusterCall : Call → Bool
  | Call.clusterFork => true
  | Call.clusterOnExit => true
  | _ => false

/-- The calls that write to the console. -/
def Call.isConsole : Call → Bool
  | Call.consoleLog _ => true
  | Call.consoleError _ => true
  | _ => false

/-- The `maxPoolSize` of every `mongoose.connect` call in a sequence of calls. -/
def maxPoolSizeOf (cs : List Call) : List Nat :=
  cs.filterMap fun c =>
    match c with
    | Call.mongooseConnect _ opts => some opts.maxPoolSize
    | _ => none

/-- The bound a worker started with `env` puts on its connection pool. -/
def workerMaxPool (env : Env) : Nat :=
  (maxPoolSizeOf (startServer env)).sum

/-- The paths at which a sequence of calls mounts routers. -/
def mountedPaths (cs : List Call) : List String :=
  cs.filterMap fun c =>
    match c with
    | Call.appUseRouter path _ => some path
    | _ => none

/-- The middleware a sequence of calls installs with `app.use`. -/
def installed (cs : List Call) : List Middleware :=
  cs.filterMap fun c =>
    match c with
    | Call.appUse mw => some mw
    | _ => none

/-- The ports a sequence of calls listens on. -/
def listenPorts (cs : List Call) : List JsVal :=
  cs.filterMap fun c =>
    match c with
    | Call.appListen port => some port
    | _ => none

/-- The rate-limit options a sequence of calls installs. -/
def limitersOf (cs : List Call) : List RateLimitOptions :=
  cs.filterMap fun c =>
    match c with
    | Call.appUse (Middleware.rateLimit opts) => some opts
    | _ => none

/-! ## The rate limiter of a worker (server.js 73-78)

`rateLimit` is called without a `store` option, so every worker process
counts hits in a store of its own memory, keyed by client IP.  The store
below follows the in-memory store of express-rate-limit: a client record
holds the hits of the current window and the time at which it ends. -/

/-- One client record of a worker's store. -/
structure Client where
  totalHits : Nat
  resetTime : Nat
  deriving DecidableEq, Repr

/-- The store of one worker: client records by key. -/
abbrev Store := List (String × Client)

/-- A hit of `key` at time `now` (ms): a record that is missing or whose
window has ended starts a new window; the hit is counted. -/
def Store.increment (opts : RateLimitOptions) (store : Store) (key : String)
    (now : Nat) : Store × Nat :=
  match store.lookup key with
  | some c =>
    if now < c.resetTime then
      ((key, { c with totalHits := c.totalHits + 1 }) :: store.filter (fun p => p.1 != key),
        c.totalHits + 1)
    else
      ((key, { totalHits := 1, resetTime := now + opts.windowMs })
        :: store.filter (fun p => p.1 != key), 1)
  | none =>
    ((key, { totalHits := 1, resetTime := now + opts.windowMs }) :: store, 1)

/-- The limiter middleware: the request goes on to the routes when the hit
count of its IP is within `max`, and is answered 429 otherwise. -/
def limiter (opts : RateLimitOptions) (store : Store) (ip : String) (now : Nat) :
    Store × Bool :=
  let r := Store.increment opts store ip now
  (r.1, decide (r.2 ≤ opts.max))

/-- A request as the cluster sees it: the client IP, the arrival time in
ms and the index of the worker that receives the connection. -/
structure Request where
  ip : String
  time : Nat
  worker : Nat
  deriving DecidableEq, Repr

/-- The workers serve a request: the receiving worker runs its limiter on
its own store; the result tells whether the request was admitted. -/
def serve (opts : RateLimitOptions) (stores : List Store) (r : Request) :
    List Store × Bool :=
  match stores[r.worker]? with
  | none => (stores, false)
  | some store =>
    let res := limiter opts store r.ip r.time
    (stores.set r.worker res.1, res.2)

/-- The requests admitted out of a sequence, in arrival order. -/
def admitted (opts : RateLimitOptions) : List Store → List Request → List Request
  | _, [] => []
  | stores, r :: rs =>
    let res := serve opts stores r
    if res.2 then r :: admitted opts res.1 rs else admitted opts res.1 rs

/-- The requests the whole server admits: one worker per live worker of
the master, each with the limiter its `startServer` installs and an empty
store. -/
def serverAdmits (numCPUs : Nat) (env : Env) (rs : List Request) : List Request :=
  match limitersOf (startServer env) with
  | opts :: _ => admitted opts (List.replicate (start numCPUs).live []) rs
  | [] => rs

/-- A burst of `n` requests from one IP, one per millisecond, handed to
`workers` workers in turn. -/
def burst (ip : String) (n workers : Nat) : List Request :=
  (List.range n).map fun i => { ip := ip, time := i, worker := i % workers }

/-- Hits of `key` recorded in a store. -/
def Store.hits (store : Store) (key : String) : Nat :=
  match store.lookup key with
  | some c => c.totalHits
  | none => 0

/-- A store that has seen only `key`, in a window that is still open at
every time below `opts.windowMs`. -/
def Store.onlyKey (opts : RateLimitOptions) (key : String) (store : Store) : Prop :=
  store = [] ∨ ∃ c : Client, store = [(key, c)] ∧ opts.windowMs ≤ c.resetTime

/-- The admissions the workers have used up for `key`. -/
def used (opts : RateLimitOptions) (key : String) (stores : List Store) : Nat :=
  (stores.map fun st => min (st.hits key) opts.max).sum

/-- The line the exit listener logs for a dead worker. -/
def restartLine (e : ExitEvent) : String :=
  "Worker " ++ toString e.pid ++ " died. Restarting..."

/-! ## Auxiliary facts about the master -/

theorem forkLoop_eq (numCPUs : Nat) :
    ∀ fuel i, forkLoop numCPUs fuel i
      = List.replicate (min fuel (numCPUs - i)) Call.clusterFork := by
  intro fuel
  induction fuel with
  | zero => intro i; simp [forkLoop]
  | succ fuel ih =>
    intro i
    by_cases h : i < numCPUs
    · have h1 : min (fuel + 1) (numCPUs - i) = min fuel (numCPUs - (i + 1)) + 1 := by
        omega
      simp [forkLoop, h, ih, h1, List.replicate_succ]
    · have h1 : numCPUs - i = 0 := by omega
      simp [forkLoop, h, h1]

theorem forkLoop_fuel (numCPUs extra : Nat) :
    forkLoop numCPUs (numCPUs + extra) 0 = List.replicate numCPUs Call.clusterFork := by
  rw [forkLoop_eq]
  congr 1
  omega

theorem masterBranch_eq (numCPUs : Nat) :
    masterBranch numCPUs
      = List.replicate numCPUs Call.clusterFork ++ [Call.clusterOnExit] := by
  unfold masterBranch
  rw [forkLoop_eq]
  simp

theorem run_forks (n : Nat) :
    ∀ s : Cluster, s.run (List.replicate n Call.clusterFork)
      = { s with forks := s.forks + n, live := s.live + n } := by
  induction n with
  | zero => intro s; simp [Cluster.run]
  | succ n ih =>
    intro s
    have h := ih (s.call Call.clusterFork)
    simp only [Cluster.run] at h
    simp only [Cluster.run, List.replicate_succ, List.foldl_cons, h]
    simp [Cluster.call]
    omega

theorem run_append (s : Cluster) (cs ds : List Call) :
    s.run (cs ++ ds) = (s.run cs).run ds := by
  simp [Cluster.run]

theorem start_eq (numCPUs : Nat) :
    start numCPUs
      = { forks := numCPUs, live := numCPUs, exitListeners := 1, stdout := [] } := by
  unfold start
  rw [masterBranch_eq, run_append, run_forks]
  simp [Cluster.run, Cluster.call, Cluster.init]

theorem emitExit_one (s : Cluster) (e : ExitEvent) (h : s.exitListeners = 1) :
    s.emitExit e
      = { forks := s.forks + 1, live := s.live - 1 + 1, exitListeners := 1,
          stdout := s.stdout ++ [restartLine e] } := by
  simp [Cluster.emitExit, h, exitHandler, Cluster.run, Cluster.call, restartLine]

theorem emitAll_append (s : Cluster) (es fs : List ExitEvent) :
    s.emitAll (es ++ fs) = (s.emitAll es).emitAll fs := by
  simp [Cluster.emitAll]

theorem emitAll_snoc (s : Cluster) (es : List ExitEvent) (e : ExitEvent) :
    s.emitAll (es ++ [e]) = (s.emitAll es).emitExit e := by
  simp [Cluster.emitAll]

theorem emitAll_fields (numCPUs : Nat) (es : List ExitEvent) :
    ((start numCPUs).emitAll es).forks = numCPUs + es.length
    ∧ ((start numCPUs).emitAll es).exitListeners = 1
    ∧ ((start numCPUs).emitAll es).stdout = es.map restartLine := by
  induction es using List.reverseRecOn with
  | nil => simp [Cluster.emitAll, start_eq]
  | append_singleton es e ih =>
    obtain ⟨hf, hl, hs⟩ := ih
    rw [emitAll_snoc, emitExit_one _ _ hl]
    simp [hf, hs]
    omega

theorem emitAll_start (numCPUs : Nat) (h : 1 ≤ numCPUs) (es : List ExitEvent) :
    (start numCPUs).emitAll es
      = { forks := numCPUs + es.length, live := numCPUs, exitListeners := 1,
          stdout := es.map restartLine } := by
  induction es using List.reverseRecOn with
  | nil => simp [Cluster.emitAll, start_eq]
  | append_singleton es e ih =>
    rw [emitAll_append, ih]
    simp only [Cluster.emitAll, List.foldl_cons, List.foldl_nil]
    rw [emitExit_one _ _ rfl]
    simp
    omega

/-! ## What one window admits -/

theorem increment_onlyKey (opts : RateLimitOptions) (key : String) (store : Store)
    (now : Nat) (hst : Store.onlyKey opts key store) (hnow : now < opts.windowMs) :
    Store.onlyKey opts key (Store.increment opts store key now).1
    ∧ (Store.increment opts store key now).2 = store.hits key + 1
    ∧ (Store.increment opts store key now).1.hits key = store.hits key + 1 := by
  rcases hst with h | ⟨c, h, hc⟩
  · subst h
    refine ⟨Or.inr ⟨_, rfl, ?_⟩, ?_, ?_⟩
    · simp [Store.increment]
    · simp [Store.increment, Store.hits]
    · simp [Store.increment, Store.hits, List.lookup]
  · subst h
    have hlt : now < c.resetTime := by omega
    refine ⟨Or.inr ⟨{ c with totalHits := c.totalHits + 1 }, ?_, hc⟩, ?_, ?_⟩
    · simp [Store.increment, List.lookup, hlt]
    · simp [Store.increment, Store.hits, List.lookup, hlt]
    · simp [Store.increment, Store.hits, List.lookup, hlt]

theorem serve_step (opts : RateLimitOptions) (key : String) (now : Nat)
    (hnow : now < opts.windowMs) :
    ∀ (stores : List Store) (w : Nat), (∀ st ∈ stores, Store.onlyKey opts key st) →
      (∀ st ∈ (serve opts stores { ip := key, time := now, worker := w }).1,
          Store.onlyKey opts key st)
      ∧ (serve opts stores { ip := key, time := now, worker := w }).1.length = stores.length
      ∧ used opts key (serve opts stores { ip := key, time := now, worker := w }).1
          = used opts key stores
            + (if (serve opts stores { ip := key, time := now, worker := w }).2 then 1 else 0) := by
  intro stores
  induction stores with
  | nil => intro w _; simp [serve, used]
  | cons st rest ih =>
    intro w hinv
    have hst : Store.onlyKey opts key st := hinv st (by simp)
    have hrest : ∀ s ∈ rest, Store.onlyKey opts key s := fun s hs => hinv s (by simp [hs])
    cases w with
    | zero =>
      obtain ⟨h1, h2, h3⟩ := increment_onlyKey opts key st now hst hnow
      refine ⟨?_, ?_, ?_⟩
      · intro s hs
        simp [serve, limiter] at hs
        rcases hs with hs | hs
        · rw [hs]; exact h1
        · exact hrest s hs
      · simp [serve]
      · simp only [serve, limiter, used, List.getElem?_cons_zero, List.set_cons_zero,
          List.map_cons, List.sum_cons, h2, h3]
        by_cases hle : st.hits key + 1 ≤ opts.max
        · simp [hle]; omega
        · simp [hle]; omega
    | succ w =>
      obtain ⟨h1, h2, h3⟩ := ih w hrest
      have hs : serve opts (st :: rest) { ip := key, time := now, worker := w + 1 }
          = (st :: (serve opts rest { ip := key, time := now, worker := w }).1,
             (serve opts rest { ip := key, time := now, worker := w }).2) := by
        simp only [serve, List.getElem?_cons_succ]
        cases rest[w]? <;> simp
      rw [hs]
      refine ⟨?_, ?_, ?_⟩
      · intro s hs'
        simp at hs'
        rcases hs' with hs' | hs'
        · rw [hs']; exact hst
        · exact h1 s hs'
      · simp [h2]
      · simp only [used, List.map_cons, List.sum_cons] at h3 ⊢
        omega

theorem admitted_le (opts : RateLimitOptions) (key : String) :
    ∀ (rs : List Request) (stores : List Store),
      (∀ r ∈ rs, r.ip = key ∧ r.time < opts.windowMs) →
      (∀ st ∈ stores, Store.onlyKey opts key st) →
      (admitted opts stores rs).length + used opts key stores
        ≤ opts.max * stores.length := by
  intro rs
  induction rs with
  | nil =>
    intro stores _ _
    simp only [admitted, List.length_nil, Nat.zero_add, used]
    have := List.sum_le_card_nsmul (stores.map fun st => min (st.hits key) opts.max)
      opts.max (by simp)
    simpa [Nat.mul_comm] using this
  | cons r rs ih =>
    intro stores hrs hinv
    obtain ⟨hip, ht⟩ := hrs r (by simp)
    obtain ⟨ip, time, w⟩ := r
    simp only at hip ht
    subst hip
    obtain ⟨h1, h2, h3⟩ := serve_step opts ip time ht stores w hinv
    have hi := ih (serve opts stores { ip := ip, time := time, worker := w }).1
      (fun r hr => hrs r (by simp [hr])) h1
    rw [h2, h3] at hi
    simp only [admitted]
    split <;> rename_i hok
    · simp only [hok, if_true] at hi
      simp only [List.length_cons]
      omega
    · simp only [hok] at hi
      simp at hi
      omega

/-- All requests of one IP that arrive inside one window of 900000 ms:
each worker admits at most 100 of them, the server at most `100 * numCPUs`. -/
theorem serverAdmits_le (numCPUs : Nat) (env : Env) (key : String) (rs : List Request)
    (hrs : ∀ r ∈ rs, r.ip = key ∧ r.time < 900000) :
    (serverAdmits numCPUs env rs).length ≤ 100 * numCPUs := by
  have hl : limitersOf (startServer env) = [limiterOptions] := by
    simp [limitersOf, startServer, routes]
  have hopts : limiterOptions.windowMs = 900000 ∧ limiterOptions.max = 100 := by
    simp [limiterOptions]
  have h := admitted_le limiterOptions key rs (List.replicate (start numCPUs).live [])
    (by simpa [hopts.1] using hrs)
    (by intro st hst; left; exact (List.mem_replicate.mp hst).2)
  simp only [serverAdmits, hl]
  rw [start_eq] at h ⊢
  simp only [List.length_replicate, hopts.2] at h
  show (admitted limiterOptions (List.replicate numCPUs []) rs).length ≤ 100 * numCPUs
  omega

/-! ## The supervisor -/

/-- C1: on a host with `numCPUs` CPUs (any count, so every count from 1 on)
the master's top-level code calls `cluster.fork` exactly `numCPUs` times,
all of them before it registers the exit listener, and leaves exactly
`numCPUs` live workers; the loop stops by its own condition however far it
may be unrolled. -/
theorem C1_start_forks_once_per_cpu (numCPUs extra : Nat) :
    forkLoop numCPUs (numCPUs + extra) 0 = List.replicate numCPUs Call.clusterFork
    ∧ masterBranch numCPUs
        = List.replicate numCPUs Call.clusterFork ++ [Call.clusterOnExit]
    ∧ (masterBranch numCPUs).count Call.clusterFork = numCPUs
    ∧ (start numCPUs).forks = numCPUs
    ∧ (start numCPUs).live = numCPUs := by
  refine ⟨forkLoop_fuel numCPUs extra, masterBranch_eq numCPUs, ?_, ?_, ?_⟩
  · rw [masterBranch_eq]
    simp [List.count_replicate]
  · rw [start_eq]
  · rw [start_eq]

/-- C2: whatever worker died and whatever exit code and signal came with
it, the exit listener calls `cluster.fork` exactly once, and handling the
event in any state the supervisor can be in adds exactly one fork. -/
theorem C2_exit_respawns_exactly_one (numCPUs : Nat) (es : List ExitEvent)
    (worker : Nat) (code : Option Int) (signal : Option String) :
    (exitHandler { pid := worker, code := code, signal := signal }).count
        Call.clusterFork = 1
    ∧ (((start numCPUs).emitAll es).emitExit
          { pid := worker, code := code, signal := signal }).forks
        = ((start numCPUs).emitAll es).forks + 1 := by
  have hl := (emitAll_fields numCPUs es).2.1
  refine ⟨by simp [exitHandler], ?_⟩
  rw [emitExit_one _ _ hl]

/-- C3: with `numCPUs ≥ 1` workers forked at start, after each of any
sequence of worker-exit events has been handled (after the first `k` of
them, for every `k`) the number of live workers is `numCPUs`. -/
theorem C3_pool_size_invariant (numCPUs : Nat) (h : 1 ≤ numCPUs)
    (es : List ExitEvent) (k : Nat) :
    ((start numCPUs).emitAll (es.take k)).live = numCPUs := by
  rw [emitAll_start numCPUs h]

/-- Witness of C3: four CPUs, worker 2 is killed, then worker 7 exits with
code 1; after the first event the pool has four workers. -/
theorem C3_pool_size_invariant_witness :
    1 ≤ 4 ∧
    ((start 4).emitAll
      (([{ pid := 2, code := none, signal := some "SIGKILL" },
         { pid := 7, code := some 1, signal := none }] : List ExitEvent).take 1)).live
      = 4 :=
  ⟨by decide, C3_pool_size_invariant 4 (by decide) _ 1⟩

/-- C4: with `numCPUs ≥ 1`, after start and any `k` worker-exit events the
supervisor has forked `numCPUs + k` times, `k` of them respawns, its exit
listener is still registered, and a further exit is answered by one more
fork with the pool back at `numCPUs`: no number of exits stops it. -/
theorem C4_respawns_without_cap (numCPUs : Nat) (h : 1 ≤ numCPUs)
    (es : List ExitEvent) (e : ExitEvent) :
    ((start numCPUs).emitAll es).forks = numCPUs + es.length
    ∧ ((start numCPUs).emitAll es).forks - (start numCPUs).forks = es.length
    ∧ ((start numCPUs).emitAll es).exitListeners = 1
    ∧ (((start numCPUs).emitAll es).emitExit e).forks
        = ((start numCPUs).emitAll es).forks + 1
    ∧ (((start numCPUs).emitAll es).emitExit e).live = numCPUs := by
  rw [emitAll_start numCPUs h, emitExit_one _ _ rfl, start_eq]
  refine ⟨rfl, ?_, rfl, rfl, ?_⟩
  · simp
  · show numCPUs - 1 + 1 = numCPUs
    omega

/-- Witness of C4: one CPU, the worker exits 100 times in succession. -/
theorem C4_respawns_without_cap_witness :
    1 ≤ 1 ∧
    ((start 1).emitAll (List.replicate 100 { pid := 31, code := some 1, signal := none })).forks
      = 1 + (List.replicate 100
          ({ pid := 31, code := some 1, signal := none } : ExitEvent)).length
    ∧ ((start 1).emitAll (List.replicate 100 { pid := 31, code := some 1, signal := none })).forks
        - (start 1).forks
      = (List.replicate 100
          ({ pid := 31, code := some 1, signal := none } : ExitEvent)).length
    ∧ ((start 1).emitAll
        (List.replicate 100 { pid := 31, code := some 1, signal := none })).exitListeners = 1
    ∧ (((start 1).emitAll
          (List.replicate 100 { pid := 31, code := some 1, signal := none })).emitExit
          { pid := 32, code := none, signal := some "SIGTERM" }).forks
        = ((start 1).emitAll
            (List.replicate 100 { pid := 31, code := some 1, signal := none })).forks + 1
    ∧ (((start 1).emitAll
          (List.replicate 100 { pid := 31, code := some 1, signal := none })).emitExit
          { pid := 32, code := none, signal := some "SIGTERM" }).live = 1 :=
  ⟨by decide, C4_respawns_without_cap 1 (by decide) _ _⟩

/-- C5: the master logs nothing while it forks the initial workers, and
after any sequence of worker-exit events its log is exactly one line
"Worker PID died. Restarting..." per event, in event order, with the PID
of the worker that died. -/
theorem C5_log_one_line_per_exit (numCPUs : Nat) (es : List ExitEvent) :
    (start numCPUs).stdout = []
    ∧ ((start numCPUs).emitAll es).stdout
        = es.map (fun e => "Worker " ++ toString e.pid ++ " died. Restarting...") := by
  refine ⟨by rw [start_eq], ?_⟩
  rw [(emitAll_fields numCPUs es).2.2]
  rfl

/-! ## Master and worker roles -/

/-- C6: a process with `cluster.isMaster` true only forks and registers the
exit listener (once), and neither its top-level code nor its listener
makes any call of `startServer`; a process with `cluster.isMaster` false
runs `startServer` and nothing else, once (one `express()`, one
`mongoose.connect`, one `app.listen`), and none of its calls, callbacks
included, forks or registers an exit listener. -/
theorem C6_master_and_worker_disjoint (numCPUs : Nat) (env : Env) (pid : Nat)
    (outcome : ConnectOutcome) (listenFirst : Bool) (e : ExitEvent) :
    (serverJs true numCPUs env).all (fun c => c.isClusterCall && !c.isServerCall) = true
    ∧ (serverJs true numCPUs env).count Call.clusterOnExit = 1
    ∧ (exitHandler e).all (fun c => !c.isServerCall) = true
    ∧ serverJs false numCPUs env = startServer env
    ∧ (startServer env).count Call.express = 1
    ∧ (maxPoolSizeOf (startServer env)).length = 1
    ∧ (listenPorts (startServer env)).length = 1
    ∧ (workerProcess env pid outcome listenFirst).all (fun c => !c.isClusterCall) = true := by
  refine ⟨?_, ?_, ?_, ?_, ?_, ?_, ?_, ?_⟩
  · simp [serverJs, masterBranch_eq, Call.isClusterCall, Call.isServerCall]
  · simp [serverJs, masterBranch_eq, List.count_replicate]
  · simp [exitHandler, Call.isServerCall]
  · simp [serverJs]
  · simp [startServer, routes]
  · simp [maxPoolSizeOf, startServer, routes]
  · simp [listenPorts, startServer, routes]
  · cases outcome <;> cases listenFirst <;>
      simp [workerProcess, startServer, routes, connectChain, Chain.andThen,
        Chain.orCatch, onListening, Call.isClusterCall]

/-! ## The rate limiter across workers -/

set_option maxRecDepth 100000 in
/-- C7: every worker installs the limiter with a window of 900000 ms and a
maximum of 100.  Of a burst of 200 requests from one IP inside 200 ms a
single worker admits 100, but on a host with two CPUs, where the requests
go to the two workers in turn, the burst is admitted in full: the server
admits 200 requests of that IP in one window, not 100. -/
theorem C7_two_workers_admit_200 :
    limitersOf (startServer { PORT := none, MONGO_URL := none, CLIENT_URL := none })
      = [{ windowMs := 900000, max := 100 }]
    ∧ (burst "203.0.113.7" 200 2).all
        (fun r => r.ip == "203.0.113.7" && decide (r.time < 900000)) = true
    ∧ (serverAdmits 1 { PORT := none, MONGO_URL := none, CLIENT_URL := none }
        (burst "203.0.113.7" 200 1)).length = 100
    ∧ (serverAdmits 2 { PORT := none, MONGO_URL := none, CLIENT_URL := none }
        (burst "203.0.113.7" 200 2)).length = 200 := by
  decide

/-! ## The connection pool -/

/-- C8: every worker, whatever its environment, its PID and the CPU count,
passes `maxPoolSize: 10` to its one `mongoose.connect`; so when each of
the workers kept by the supervisor on a host with `numCPUs ≥ 1` CPUs has
no more connections open than its pool allows, the workers together have
at most `10 * numCPUs` connections open. -/
theorem C8_pool_bound (numCPUs : Nat) (h : 1 ≤ numCPUs) (env : Env) (pid : Nat)
    (outcome : ConnectOutcome) (listenFirst : Bool) (es : List ExitEvent)
    (conns : List Nat)
    (hlen : conns.length = ((start numCPUs).emitAll es).live)
    (hmax : ∀ c ∈ conns, c ≤ workerMaxPool env) :
    maxPoolSizeOf (workerProcess env pid outcome listenFirst) = [10]
    ∧ conns.sum ≤ 10 * numCPUs := by
  have hw : workerMaxPool env = 10 := by
    simp [workerMaxPool, maxPoolSizeOf, startServer, routes, connectOptions]
  refine ⟨?_, ?_⟩
  · cases outcome <;> cases listenFirst <;>
      simp [maxPoolSizeOf, workerProcess, startServer, routes, connectOptions,
        connectChain, Chain.andThen, Chain.orCatch, onListening]
  · rw [emitAll_start numCPUs h] at hlen
    simp only at hlen
    rw [hw] at hmax
    have hs := List.sum_le_card_nsmul conns 10 hmax
    rw [hlen] at hs
    simpa [Nat.mul_comm] using hs

/-- Witness of C8: two CPUs, no exit so far, one worker with 10 and one
with 7 connections open. -/
theorem C8_pool_bound_witness :
    1 ≤ 2
    ∧ ([10, 7] : List Nat).length = ((start 2).emitAll []).live
    ∧ (∀ c ∈ ([10, 7] : List Nat),
        c ≤ workerMaxPool { PORT := none, MONGO_URL := some "mongodb://db/shop", CLIENT_URL := none })
    ∧ maxPoolSizeOf
        (workerProcess { PORT := none, MONGO_URL := some "mongodb://db/shop", CLIENT_URL := none }
          41 ConnectOutcome.resolved true) = [10]
    ∧ ([10, 7] : List Nat).sum ≤ 10 * 2 :=
  ⟨by decide, by decide, by decide,
    C8_pool_bound 2 (by decide)
      { PORT := none, MONGO_URL := some "mongodb://db/shop", CLIENT_URL := none }
      41 ConnectOutcome.resolved true [] [10, 7] (by decide) (by decide)⟩

/-! ## Worker start-up -/

/-- C9: whether `mongoose.connect` resolves or rejects, the chain ends
fulfilled (the rejection is caught) and its callbacks only write to the
console; apart from console output the worker makes the same calls in
both cases, namely those of `startServer`: it installs the six
middleware, mounts the ten route groups and, as its last call, listens on
`PORT`. -/
theorem C9_connect_failure_not_fatal (env : Env) (pid : Nat) (error : String)
    (outcome : ConnectOutcome) (listenFirst listenFirst2 : Bool) :
    (connectChain outcome).state = ConnectOutcome.resolved
    ∧ (connectChain outcome).calls.all Call.isConsole = true
    ∧ (connectChain (ConnectOutcome.rejected error)).calls
        = [Call.consoleError ("MongoDB connection error: " ++ error)]
    ∧ (workerProcess env pid ConnectOutcome.resolved listenFirst).filter
          (fun c => !c.isConsole)
        = (workerProcess env pid (ConnectOutcome.rejected error) listenFirst2).filter
          (fun c => !c.isConsole)
    ∧ (workerProcess env pid outcome listenFirst).filter (fun c => !c.isConsole)
        = startServer env
    ∧ installed (startServer env)
        = [Middleware.cors (some (corsOptions env)), Middleware.cookieParser,
           Middleware.expressJson, Middleware.compression,
           Middleware.rateLimit limiterOptions]
    ∧ (startServer env).count (Call.appOptions "*" (Middleware.cors none)) = 1
    ∧ mountedPaths (startServer env)
        = ["/api/auth", "/api/admin/products", "/api/admin/orders",
           "/api/shop/products", "/api/shop/cart", "/api/shop/address",
           "/api/shop/order", "/api/shop/search", "/api/shop/review",
           "/api/common/feature"]
    ∧ (startServer env).getLast? = some (Call.appListen (PORT env)) := by
  have hw : ∀ (o : ConnectOutcome) (b : Bool),
      (workerProcess env pid o b).filter (fun c => !c.isConsole) = startServer env := by
    intro o b
    cases o <;> cases b <;>
      simp [workerProcess, startServer, routes, Call.isConsole, connectChain,
        Chain.andThen, Chain.orCatch, onListening]
  refine ⟨?_, ?_, ?_, ?_, hw _ _, ?_, ?_, ?_, ?_⟩
  · cases outcome <;> simp [connectChain, Chain.andThen, Chain.orCatch]
  · cases outcome <;> simp [connectChain, Chain.andThen, Chain.orCatch, Call.isConsole]
  · simp [connectChain, Chain.andThen, Chain.orCatch]
  · rw [hw, hw]
  · simp [installed, startServer, routes]
  · simp [startServer, routes]
  · simp [mountedPaths, startServer, routes]
  · simp [startServer, routes]

/-! ## The listening port -/

/-- C10: `PORT` is the value of the environment entry when that is a
non-empty string and the number 5000 when it is unset or empty; a worker
listens once, on that value, and names it in its start-up line. -/
theorem C10_port_default (env : Env) (s : String) (pid : Nat)
    (outcome : ConnectOutcome) (listenFirst : Bool) :
    (env.PORT = some s → s ≠ "" → PORT env = JsVal.str s)
    ∧ (env.PORT = none ∨ env.PORT = some "" → PORT env = JsVal.num 5000)
    ∧ listenPorts (workerProcess env pid outcome listenFirst) = [PORT env]
    ∧ onListening env pid
        = [Call.consoleLog
            ("Worker " ++ toString pid ++ " is running on port " ++ (PORT env).render)] := by
  refine ⟨?_, ?_, ?_, rfl⟩
  · intro h hs
    simp [PORT, jsOr, h, hs]
  · intro h
    rcases h with h | h <;> simp [PORT, jsOr, h]
  · cases outcome <;> cases listenFirst <;>
      simp [listenPorts, workerProcess, startServer, routes, connectChain,
        Chain.andThen, Chain.orCatch, onListening]

/-- Witness of C10: with `PORT=8080` the port is the string "8080", with
`PORT` empty or unset it is 5000. -/
theorem C10_port_default_witness :
    PORT { PORT := some "8080", MONGO_URL := none, CLIENT_URL := none } = JsVal.str "8080"
    ∧ PORT { PORT := some "", MONGO_URL := none, CLIENT_URL := none } = JsVal.num 5000
    ∧ PORT { PORT := none, MONGO_URL := none, CLIENT_URL := none } = JsVal.num 5000 :=
  ⟨(C10_port_default { PORT := some "8080", MONGO_URL := none, CLIENT_URL := none }
      "8080" 1 ConnectOutcome.resolved true).1 rfl (by decide),
   (C10_port_default { PORT := some "", MONGO_URL := none, CLIENT_URL := none }
      "" 1 ConnectOutcome.resolved true).2.1 (Or.inr rfl),
   (C10_port_default { PORT := none, MONGO_URL := none, CLIENT_URL := none }
      "" 1 ConnectOutcome.resolved true).2.1 (Or.inl rfl)⟩

end Server
